import Mathlib

/-!
Verification of the AuraCargo payments dashboard.

This file gives a shallow embedding of the two source files of the
repository — `src/pages/admin/PaymentsManagement.tsx` and
`src/components/LoadingSpinner.tsx` — and proves the behavioural
properties claimed about them.

Conventions of the embedding:
* JavaScript numbers (payment amounts, aggregate sums) are modelled as
  rational numbers `ℚ`.
* Nullable fields (`T | null` in the TypeScript interfaces) are modelled
  as `Option`.
* JavaScript string built-ins (`toLowerCase`, `trim`, `includes`,
  `toFixed`, `toLocaleString`) are not part of the repository's source;
  they are modelled here as executable Lean functions, each carrying a
  doc comment saying exactly which built-in it models.
-/

namespace Auracargo

/-! ### JavaScript string built-ins -/

/-- Modelled from the spec: ASCII lower-casing of a single character, the
character-level core of `String.prototype.toLowerCase`, which the source
uses only on ASCII status strings and search terms. -/
def lowerChar (c : Char) : Char :=
  if 65 ≤ c.toNat ∧ c.toNat ≤ 90 then Char.ofNat (c.toNat + 32) else c

/-- Modelled from the spec: `String.prototype.toLowerCase` (restricted to
ASCII case mapping), used by the source for "case-insensitive" matching. -/
def strToLower (s : String) : String := ⟨s.data.map lowerChar⟩

/-- Modelled from the spec: `String.prototype.includes hay.includes needle`,
substring containment; the empty needle is contained in every string. -/
def strIncludes (hay needle : String) : Bool :=
  (List.range (hay.data.length + 1)).any fun i => needle.data.isPrefixOf (hay.data.drop i)

/-- JavaScript whitespace characters relevant to `String.prototype.trim`. -/
def isJsWhitespace (c : Char) : Bool :=
  c = ' ' || c = '\t' || c = '\n' || c = '\r'

/-- Modelled from the spec: `String.prototype.trim`, removing leading and
trailing whitespace. -/
def strTrim (s : String) : String :=
  ⟨((s.data.dropWhile isJsWhitespace).reverse.dropWhile isJsWhitespace).reverse⟩

/-! ### JavaScript number rendering built-ins -/

/-- Decimal digits of a natural number, left-padded with zeros to `d` digits. -/
def padZeroLeft (d : Nat) (s : String) : String :=
  ⟨List.replicate (d - s.data.length) '0' ++ s.data⟩

/-- Round `q * 10 ^ d` to the nearest integer, halves away from zero for
the non-negative arguments the dashboard renders; computed directly from
the numerator and denominator so that it evaluates in the kernel. -/
def ratScaledRound (d : Nat) (q : ℚ) : Nat :=
  (Int.fdiv (2 * q.num * ((10 : ℤ) ^ d) + (q.den : ℤ)) (2 * (q.den : ℤ))).toNat

/-- Modelled from the spec: `Number.prototype.toFixed d` for the
non-negative values the dashboard renders — the value rounded to exactly
`d` decimal places, with a `.` and zero-padded fraction when `d > 0`. -/
def ratToFixed (d : Nat) (q : ℚ) : String :=
  let n := ratScaledRound d q
  let m := 10 ^ d
  if d = 0 then toString n
  else toString (n / m) ++ "." ++ padZeroLeft d (toString (n % m))

/-- Insert a comma after every group of three characters of a reversed
digit list, the core of en-US thousands grouping. -/
def commaGroupRev : List Char → List Char
  | [] => []
  | [a] => [a]
  | [a, b] => [a, b]
  | [a, b, c] => [a, b, c]
  | a :: b :: c :: d :: rest => a :: b :: c :: ',' :: commaGroupRev (d :: rest)

/-- Drop trailing `'0'` characters of a fraction rendering. -/
def trimTrailingZeros (s : String) : String :=
  ⟨(s.data.reverse.dropWhile fun c => c = '0').reverse⟩

/-- Modelled from the spec: `Number.prototype.toLocaleString` under the
default en-US locale for the non-negative values the dashboard renders —
thousands of the integer part separated by commas, at most three fraction
digits, trailing fraction zeros dropped. -/
def toLocaleStringEnUS (q : ℚ) : String :=
  let scaled := ratScaledRound 3 q
  let ip := scaled / 1000
  let fp := scaled % 1000
  let ipStr : String := ⟨(commaGroupRev (toString ip).data.reverse).reverse⟩
  if fp = 0 then ipStr
  else ipStr ++ "." ++ trimTrailingZeros (padZeroLeft 3 (toString fp))

/-! ### Data model (`interface Payment` of PaymentsManagement.tsx) -/

/-- The joined `profiles` sub-record: `{ email: string; first_name: string | null;
last_name: string | null }`. -/
structure Profile where
  email : String
  first_name : Option String
  last_name : Option String
deriving DecidableEq

/-- The `Payment` interface of PaymentsManagement.tsx. -/
structure Payment where
  id : String
  amount : ℚ
  status : String
  payment_method : String
  created_at : String
  transaction_id : Option String
  payment_reference : Option String
  payment_provider : Option String
  currency : String
  profiles : Option Profile
deriving DecidableEq

/-! ### Search filtering (PaymentsManagement.tsx lines 88–92) -/

/-- The filter predicate of `filteredPayments`. Each optional-chained
disjunct is `false` when the field is `null`; the `profiles` disjunct
additionally requires a truthy (non-empty) `email`, mirroring
`payment.profiles?.email && payment.profiles.email.toLowerCase().includes(...)`. -/
def matchesSearch (searchTerm : String) (payment : Payment) : Bool :=
  (match payment.transaction_id with
    | some t => strIncludes (strToLower t) (strToLower searchTerm)
    | none => false) ||
  (match payment.payment_reference with
    | some r => strIncludes (strToLower r) (strToLower searchTerm)
    | none => false) ||
  (match payment.profiles with
    | some pr => pr.email != "" && strIncludes (strToLower pr.email) (strToLower searchTerm)
    | none => false)

/-- `filteredPayments` = `payments.filter(...)` of PaymentsManagement.tsx. -/
def filteredPayments (searchTerm : String) (payments : List Payment) : List Payment :=
  payments.filter (matchesSearch searchTerm)

/-! ### Display helpers (PaymentsManagement.tsx lines 94–134) -/

/-- `getStatusVariant`: the case-sensitive `switch` on the raw status string. -/
def getStatusVariant (status : String) : String :=
  if status = "paid" ∨ status = "Completed" then "default"
  else if status = "pending" ∨ status = "Pending" then "secondary"
  else if status = "failed" ∨ status = "Failed" then "destructive"
  else "outline"

/-- `getCustomerName`: `"Unknown"` without a profile; the trimmed
`` `${firstName} ${lastName}` `` when either defaulted name is non-empty;
the profile email otherwise. `x || ""` is `Option.getD ""` here, since it
maps both `null` and `""` to `""`. -/
def getCustomerName (payment : Payment) : String :=
  match payment.profiles with
  | none => "Unknown"
  | some profile =>
    let firstName := profile.first_name.getD ""
    let lastName := profile.last_name.getD ""
    if firstName ≠ "" ∨ lastName ≠ "" then strTrim (firstName ++ " " ++ lastName)
    else profile.email

/-- `formatCurrency` (the `currency = "USD"` default parameter is omitted:
every call site passes `payment.currency` explicitly). -/
def formatCurrency (amount : ℚ) (currency : String) : String :=
  if currency = "NGN" then "₦" ++ toLocaleStringEnUS amount
  else "$" ++ ratToFixed 2 amount

/-- `getPaymentProviderLink`: the JavaScript guard
`payment.payment_provider === 'paystack' && payment.payment_reference`
requires a truthy reference, so a `null` and an empty-string reference
both fall through to `null`. -/
def getPaymentProviderLink (payment : Payment) : Option String :=
  if payment.payment_provider = some "paystack" ∧ payment.payment_reference.getD "" ≠ "" then
    some ("https://dashboard.paystack.com/#/transactions/" ++ payment.payment_reference.getD "")
  else none

/-! ### Summary aggregation (PaymentsManagement.tsx lines 136–159 and 208–213) -/

/-- `totalRevenue`: reduce over the full payments list, adding `amount`
when the lowercased status is `"paid"` or `"completed"`. -/
def totalRevenue (payments : List Payment) : ℚ :=
  payments.foldl
    (fun sum payment =>
      if strToLower payment.status == "paid" || strToLower payment.status == "completed" then
        sum + payment.amount
      else sum)
    0

/-- `pendingRevenue`: reduce adding `amount` when the lowercased status is `"pending"`. -/
def pendingRevenue (payments : List Payment) : ℚ :=
  payments.foldl
    (fun sum payment =>
      if strToLower payment.status == "pending" then sum + payment.amount else sum)
    0

/-- `failedRevenue`: reduce adding `amount` when the lowercased status is `"failed"`. -/
def failedRevenue (payments : List Payment) : ℚ :=
  payments.foldl
    (fun sum payment =>
      if strToLower payment.status == "failed" then sum + payment.amount else sum)
    0

/-- `completedCount`: length of the filter on lowercased status `"paid"`/`"completed"`. -/
def completedCount (payments : List Payment) : Nat :=
  (payments.filter fun payment =>
    strToLower payment.status == "paid" || strToLower payment.status == "completed").length

/-- `pendingCount`: length of the filter on lowercased status `"pending"`. -/
def pendingCount (payments : List Payment) : Nat :=
  (payments.filter fun payment => strToLower payment.status == "pending").length

/-- `failedCount`: length of the filter on lowercased status `"failed"`. -/
def failedCount (payments : List Payment) : Nat :=
  (payments.filter fun payment => strToLower payment.status == "failed").length

/-- The success-rate rendering of the JSX (lines 208–213):
`payments.length > 0 ? ((completedCount / payments.length) * 100).toFixed(1) + "%" : "0%"`. -/
def successRate (payments : List Payment) : String :=
  if payments.length > 0 then
    ratToFixed 1 ((completedCount payments : ℚ) / (payments.length : ℚ) * 100) ++ "%"
  else "0%"

/-! ### Component state and the fetch effect (PaymentsManagement.tsx lines 42–86) -/

/-- The four `useState` cells of `PaymentsManagement`. -/
structure ComponentState where
  searchTerm : String
  payments : List Payment
  isLoading : Bool
  error : Option String
deriving DecidableEq

/-- The initial render state: `useState("")`, `useState([])`,
`useState(true)`, `useState(null)`. -/
def initialState : ComponentState :=
  { searchTerm := "", payments := [], isLoading := true, error := none }

/-- The state updates of `fetchPayments` applied to a settled fetch
outcome: `setIsLoading(true); setError(null)`, then on success
`setPayments(data || [])`, on a thrown error `setError(err.message)`
(the `payments` cell is left untouched), and `setIsLoading(false)` in the
`finally` block. `Except.error` carries `err.message`; `Except.ok none`
is a `null` data payload. -/
def applyFetchOutcome (state : ComponentState)
    (outcome : Except String (Option (List Payment))) : ComponentState :=
  let started := { state with isLoading := true, error := none }
  match outcome with
  | Except.ok data => { started with payments := data.getD [], isLoading := false }
  | Except.error message => { started with error := some message, isLoading := false }

/-! ### The rendered derived view (for search non-interference) -/

/-- Everything the component body derives from its state on a render:
the filtered table rows plus the summary-card values. -/
structure RenderedView where
  rows : List Payment
  totalRevenue : ℚ
  pendingRevenue : ℚ
  failedRevenue : ℚ
  completedCount : Nat
  pendingCount : Nat
  failedCount : Nat
  successRate : String

/-- The derivations of the component body: `filteredPayments` from the
search term, every aggregate from the full `payments` list. -/
def renderView (payments : List Payment) (searchTerm : String) : RenderedView :=
  { rows := filteredPayments searchTerm payments
    totalRevenue := totalRevenue payments
    pendingRevenue := pendingRevenue payments
    failedRevenue := failedRevenue payments
    completedCount := completedCount payments
    pendingCount := pendingCount payments
    failedCount := failedCount payments
    successRate := successRate payments }

/-- The summary-card values of a rendered view (everything except the
filtered table rows). -/
structure SummaryCards where
  totalRevenue : ℚ
  pendingRevenue : ℚ
  failedRevenue : ℚ
  completedCount : Nat
  pendingCount : Nat
  failedCount : Nat
  successRate : String

/-- Project the summary cards out of a rendered view. -/
def summaryOf (view : RenderedView) : SummaryCards :=
  { totalRevenue := view.totalRevenue
    pendingRevenue := view.pendingRevenue
    failedRevenue := view.failedRevenue
    completedCount := view.completedCount
    pendingCount := view.pendingCount
    failedCount := view.failedCount
    successRate := view.successRate }

/-! ### The loading-indicator state machine (LoadingSpinner.tsx) -/

/-- The two `useState` cells of `LoadingSpinner`: `loadingTime` (elapsed
seconds) and `timeoutReached`. -/
structure SpinnerState where
  loadingTime : Nat
  timeoutReached : Bool
deriving DecidableEq

/-- The two timer callbacks registered by the `useEffect` of
`LoadingSpinner`: the 1000 ms `setInterval` tick and the one-shot
`setTimeout` firing. -/
inductive SpinnerEvent where
  | tick
  | timeoutFire
deriving DecidableEq

/-- The state updates of the timer callbacks: the interval runs
`setLoadingTime(prev => prev + 1)`, the timeout runs
`setTimeoutReached(true)`. -/
def applyEvent (state : SpinnerState) : SpinnerEvent → SpinnerState
  | SpinnerEvent.tick => { state with loadingTime := state.loadingTime + 1 }
  | SpinnerEvent.timeoutFire => { state with timeoutReached := true }

/-- Modelled from the spec: the browser timer queue, which is not part of
the repository. For a component mounted at time 0 with configured
`timeout`, unmounted at `unmountAt` ms (the cleanup clears both timers),
the events delivered by time `t` ms: the one-shot timeout when `timeout`
ms elapsed before the cutoff, and one interval tick per whole 1000 ms
before the cutoff. -/
def deliveredEvents (timeout unmountAt t : Nat) : List SpinnerEvent :=
  (if timeout ≤ min t unmountAt then [SpinnerEvent.timeoutFire] else []) ++
    List.replicate (min t unmountAt / 1000) SpinnerEvent.tick

/-- The spinner state observed at time `t` ms: the delivered events folded
over the initial state `useState(false)` / `useState(0)`. -/
def spinnerState (timeout unmountAt t : Nat) : SpinnerState :=
  (deliveredEvents timeout unmountAt t).foldl applyEvent
    { loadingTime := 0, timeoutReached := false }

/-! ### Spec-side definitions (for refinement statements) -/

/-- The paid-equivalent bucket of the spec: lowercased status `"paid"` or
`"completed"`. -/
def isPaidLower (s : String) : Bool :=
  strToLower s == "paid" || strToLower s == "completed"

/-- The pending bucket of the spec: lowercased status `"pending"`. -/
def isPendingLower (s : String) : Bool := strToLower s == "pending"

/-- The failed bucket of the spec: lowercased status `"failed"`. -/
def isFailedLower (s : String) : Bool := strToLower s == "failed"

/-- A status recognized by one of the three case-insensitive buckets. -/
def recognizedStatus (s : String) : Bool :=
  isPaidLower s || isPendingLower s || isFailedLower s

/-- Spec wording for `totalRevenue`: the sum of `amount` over the payments
whose lowercased status is `"paid"` or `"completed"`. -/
def totalRevenueSpec (payments : List Payment) : ℚ :=
  ((payments.filter fun p => isPaidLower p.status).map Payment.amount).sum

/-- Spec wording for `pendingRevenue`: the sum of `amount` over lowercased
status `"pending"`. -/
def pendingRevenueSpec (payments : List Payment) : ℚ :=
  ((payments.filter fun p => isPendingLower p.status).map Payment.amount).sum

/-- Spec wording for `failedRevenue`: the sum of `amount` over lowercased
status `"failed"`. -/
def failedRevenueSpec (payments : List Payment) : ℚ :=
  ((payments.filter fun p => isFailedLower p.status).map Payment.amount).sum

/-- Spec wording for `successRate`: `completedCount / totalCount * 100`
rendered to one decimal place with a `"%"` suffix, exactly `"0%"` for the
empty list. -/
def successRateSpec (payments : List Payment) : String :=
  if payments.length = 0 then "0%"
  else ratToFixed 1 ((completedCount payments : ℚ) / (payments.length : ℚ) * 100) ++ "%"

/-- A payment in which the three searchable fields are all absent: the
empty search term does not match it. -/
def searchlessPayment : Payment :=
  { id := "p0", amount := 0, status := "paid", payment_method := "card"
    created_at := "2024-01-01T00:00:00Z", transaction_id := none
    payment_reference := none, payment_provider := none, currency := "USD"
    profiles := none }

/-- A payment with a transaction id, used to instantiate the filter theorem. -/
def searchablePayment : Payment :=
  { id := "p9", amount := 10, status := "paid", payment_method := "card"
    created_at := "2024-01-02T00:00:00Z", transaction_id := some "TX-100"
    payment_reference := none, payment_provider := none, currency := "USD"
    profiles := none }

/-- A paystack payment whose `payment_reference` is present but empty:
the truthiness guard rejects it. -/
def emptyRefPayment : Payment :=
  { id := "p8", amount := 10, status := "paid", payment_method := "card"
    created_at := "2024-01-03T00:00:00Z", transaction_id := none
    payment_reference := some "", payment_provider := some "paystack", currency := "USD"
    profiles := none }

/-- A paystack payment with a non-empty reference, used to instantiate the
provider-link theorem. -/
def linkedPayment : Payment :=
  { id := "p7", amount := 10, status := "paid", payment_method := "card"
    created_at := "2024-01-04T00:00:00Z", transaction_id := none
    payment_reference := some "ref_123", payment_provider := some "paystack", currency := "USD"
    profiles := none }

/-- A payment with a profile, used to instantiate the customer-name theorem. -/
def namedPayment : Payment :=
  { id := "p6", amount := 10, status := "paid", payment_method := "card"
    created_at := "2024-01-05T00:00:00Z", transaction_id := none
    payment_reference := none, payment_provider := none, currency := "USD"
    profiles := some { email := "ada@example.com", first_name := some "Ada", last_name := none } }

/-- The three payments of the spec scenario: statuses `"paid"`,
`"Pending"`, `"failed"` with amounts 100, 50, 25, currency `"USD"`. -/
def scenarioPayment1 : Payment :=
  { id := "s1", amount := 100, status := "paid", payment_method := "card"
    created_at := "2024-02-01T00:00:00Z", transaction_id := some "t1"
    payment_reference := none, payment_provider := none, currency := "USD"
    profiles := none }

/-- Second scenario payment: status `"Pending"`, amount 50. -/
def scenarioPayment2 : Payment :=
  { id := "s2", amount := 50, status := "Pending", payment_method := "card"
    created_at := "2024-02-02T00:00:00Z", transaction_id := some "t2"
    payment_reference := none, payment_provider := none, currency := "USD"
    profiles := none }

/-- Third scenario payment: status `"failed"`, amount 25. -/
def scenarioPayment3 : Payment :=
  { id := "s3", amount := 25, status := "failed", payment_method := "card"
    created_at := "2024-02-03T00:00:00Z", transaction_id := some "t3"
    payment_reference := none, payment_provider := none, currency := "USD"
    profiles := none }

/-- The scenario list of the spec. -/
def scenarioPayments : List Payment :=
  [scenarioPayment1, scenarioPayment2, scenarioPayment3]

/-- A record has a searchable field when `transaction_id` or
`payment_reference` is present, or a profile with a non-empty email is. -/
def hasSearchableField (p : Payment) : Bool :=
  p.transaction_id.isSome || p.payment_reference.isSome ||
    (match p.profiles with
      | some pr => pr.email != ""
      | none => false)

/-! ### Helper lemmas -/

/-- String append acts as list append on the underlying character data. -/
theorem data_append (a b : String) : (a ++ b).data = a.data ++ b.data := by
  rcases a with ⟨da⟩
  rcases b with ⟨db⟩
  rfl

/-- Lower-casing the empty string gives the empty string. -/
theorem strToLower_empty : strToLower "" = "" := rfl

/-- Every string contains the empty string. -/
theorem strIncludes_empty_needle (hay : String) : strIncludes hay "" = true := by
  unfold strIncludes
  have h0 : "".data = ([] : List Char) := by decide
  refine List.any_eq_true.mpr ⟨0, List.mem_range.mpr (Nat.succ_pos _), ?_⟩
  rw [h0]
  simp [List.isPrefixOf]

/-- A string prefixed with `"₦"` has `'₦'` as its first character. -/
theorem head_append_naira (s : String) : ("₦" ++ s).data.head? = some '₦' := by
  rw [data_append]
  rfl

/-- A string prefixed with `"$"` has `'$'` as its first character. -/
theorem head_append_dollar (s : String) : ("$" ++ s).data.head? = some '$' := by
  rw [data_append]
  rfl

/-- Length of a filter over a cons, as an indicator plus the tail count. -/
theorem length_filter_cons {α : Type} (p : α → Bool) (x : α) (l : List α) :
    ((x :: l).filter p).length = (if p x = true then 1 else 0) + (l.filter p).length := by
  rcases Bool.eq_false_or_eq_true (p x) with h | h
  · simp [List.filter_cons, h]
    omega
  · simp [List.filter_cons, h]

/-- The paid-equivalent and pending buckets are disjoint. -/
theorem paid_not_pending (s : String) : isPaidLower s = true → isPendingLower s = true → False := by
  intro h1 h2
  simp only [isPaidLower, Bool.or_eq_true, beq_iff_eq] at h1
  simp only [isPendingLower, beq_iff_eq] at h2
  rcases h1 with h | h <;> rw [h2] at h <;> exact absurd h (by decide)

/-- The paid-equivalent and failed buckets are disjoint. -/
theorem paid_not_failed (s : String) : isPaidLower s = true → isFailedLower s = true → False := by
  intro h1 h2
  simp only [isPaidLower, Bool.or_eq_true, beq_iff_eq] at h1
  simp only [isFailedLower, beq_iff_eq] at h2
  rcases h1 with h | h <;> rw [h2] at h <;> exact absurd h (by decide)

/-- The pending and failed buckets are disjoint. -/
theorem pending_not_failed (s : String) :
    isPendingLower s = true → isFailedLower s = true → False := by
  intro h1 h2
  simp only [isPendingLower, beq_iff_eq] at h1
  simp only [isFailedLower, beq_iff_eq] at h2
  rw [h2] at h1
  exact absurd h1 (by decide)

/-- A status contributes at most one to the three bucket counts, and
exactly one precisely when it is recognized. -/
theorem bucket_indicator (s : String) :
    ((if isPaidLower s = true then 1 else 0) + (if isPendingLower s = true then 1 else 0) +
        (if isFailedLower s = true then 1 else 0) ≤ 1) ∧
      (((if isPaidLower s = true then 1 else 0) + (if isPendingLower s = true then 1 else 0) +
          (if isFailedLower s = true then 1 else 0)) = 1 ↔ recognizedStatus s = true) := by
  by_cases h1 : isPaidLower s = true <;> by_cases h2 : isPendingLower s = true <;>
    by_cases h3 : isFailedLower s = true
  · exact (paid_not_pending s h1 h2).elim
  · exact (paid_not_pending s h1 h2).elim
  · exact (paid_not_failed s h1 h3).elim
  · exact ⟨by simp [h1, h2, h3], by simp [recognizedStatus, h1, h2, h3]⟩
  · exact (pending_not_failed s h2 h3).elim
  · exact ⟨by simp [h1, h2, h3], by simp [recognizedStatus, h1, h2, h3]⟩
  · exact ⟨by simp [h1, h2, h3], by simp [recognizedStatus, h1, h2, h3]⟩
  · exact ⟨by simp [h1, h2, h3], by simp [recognizedStatus, h1, h2, h3]⟩

/-- A conditional-accumulation fold equals the initial value plus the sum
of the amounts of the payments passing the condition. -/
theorem foldl_add_filter (cond : Payment → Bool) (payments : List Payment) :
    ∀ a : ℚ,
      payments.foldl (fun sum p => if cond p = true then sum + p.amount else sum) a =
        a + ((payments.filter cond).map Payment.amount).sum := by
  induction payments with
  | nil => intro a; simp
  | cons x l ih =>
    intro a
    by_cases h : cond x = true
    · rw [List.foldl_cons, List.filter_cons, if_pos h, if_pos h, List.map_cons, List.sum_cons,
        ih (a + x.amount)]
      ring
    · rw [List.foldl_cons, List.filter_cons, if_neg h, if_neg h, ih a]

/-- `totalRevenue` computes the spec's paid-bucket sum. -/
theorem totalRevenue_eq_spec (payments : List Payment) :
    totalRevenue payments = totalRevenueSpec payments := by
  have h := foldl_add_filter (fun p => isPaidLower p.status) payments 0
  rw [zero_add] at h
  exact h

/-- `pendingRevenue` computes the spec's pending-bucket sum. -/
theorem pendingRevenue_eq_spec (payments : List Payment) :
    pendingRevenue payments = pendingRevenueSpec payments := by
  have h := foldl_add_filter (fun p => isPendingLower p.status) payments 0
  rw [zero_add] at h
  exact h

/-- `failedRevenue` computes the spec's failed-bucket sum. -/
theorem failedRevenue_eq_spec (payments : List Payment) :
    failedRevenue payments = failedRevenueSpec payments := by
  have h := foldl_add_filter (fun p => isFailedLower p.status) payments 0
  rw [zero_add] at h
  exact h

/-- The JSX success-rate rendering agrees with the spec wording. -/
theorem successRate_eq_spec (payments : List Payment) :
    successRate payments = successRateSpec payments := by
  unfold successRate successRateSpec
  rcases Nat.eq_zero_or_pos payments.length with h | h
  · simp [h]
  · rw [if_pos h, if_neg (Nat.pos_iff_ne_zero.mp h)]

/-- The empty search term matches every payment that has a searchable field. -/
theorem matchesSearch_empty_term (p : Payment) (h : hasSearchableField p = true) :
    matchesSearch "" p = true := by
  rcases p with ⟨pid, amt, st, pm, ca, tid, ref, prov, cur, prof⟩
  rcases tid with _ | t <;> rcases ref with _ | r <;> rcases prof with _ | pr <;>
    simp_all [matchesSearch, hasSearchableField, strToLower_empty, strIncludes_empty_needle]

/-- One interaction of the spinner interval callback per tick event. -/
theorem foldl_ticks (n : Nat) : ∀ init : SpinnerState,
    (List.replicate n SpinnerEvent.tick).foldl applyEvent init =
      { loadingTime := init.loadingTime + n, timeoutReached := init.timeoutReached } := by
  induction n with
  | zero => intro init; simp
  | succ n ih =>
    intro init
    rw [List.replicate_succ, List.foldl_cons, ih]
    simp only [applyEvent]
    have h : init.loadingTime + 1 + n = init.loadingTime + (n + 1) := by omega
    rw [h]

/-- Closed form of the spinner state at time `t`. -/
theorem spinnerState_eval (timeout unmountAt t : Nat) :
    spinnerState timeout unmountAt t =
      { loadingTime := min t unmountAt / 1000,
        timeoutReached := decide (timeout ≤ min t unmountAt) } := by
  unfold spinnerState deliveredEvents
  by_cases h : timeout ≤ min t unmountAt
  · rw [if_pos h, List.singleton_append, List.foldl_cons, foldl_ticks]
    simp only [applyEvent]
    rw [decide_eq_true h, Nat.zero_add]
  · rw [if_neg h, List.nil_append, foldl_ticks, decide_eq_false h, Nat.zero_add]

/-! ### Claim theorems -/

/-- C1: for every payments list the aggregation computes case-insensitive
status buckets — `totalRevenue`, `pendingRevenue`, `failedRevenue` are the
sums of `amount` over the lowercased-status partitions paid/completed,
pending and failed, the three counts are the cardinalities of the same
partitions, and `successRate` is `completedCount / totalCount * 100`
rendered to one decimal place with a `"%"` suffix, exactly `"0%"` for the
empty list; on the 3-payment scenario (`"paid"`/`"Pending"`/`"failed"`,
amounts 100/50/25) it yields 100, 50, 25, counts 1/1/1 and `"33.3%"`. -/
theorem aggregation_buckets_and_scenario :
    (∀ ps, totalRevenue ps = totalRevenueSpec ps) ∧
    (∀ ps, pendingRevenue ps = pendingRevenueSpec ps) ∧
    (∀ ps, failedRevenue ps = failedRevenueSpec ps) ∧
    (∀ ps, completedCount ps = (ps.filter fun p => isPaidLower p.status).length) ∧
    (∀ ps, pendingCount ps = (ps.filter fun p => isPendingLower p.status).length) ∧
    (∀ ps, failedCount ps = (ps.filter fun p => isFailedLower p.status).length) ∧
    (∀ ps, successRate ps = successRateSpec ps) ∧
    totalRevenue scenarioPayments = 100 ∧
    pendingRevenue scenarioPayments = 50 ∧
    failedRevenue scenarioPayments = 25 ∧
    completedCount scenarioPayments = 1 ∧
    pendingCount scenarioPayments = 1 ∧
    failedCount scenarioPayments = 1 ∧
    successRate scenarioPayments = "33.3%" := by
  have hfPaid : scenarioPayments.filter (fun p => isPaidLower p.status) = [scenarioPayment1] := by
    decide
  have hfPend : scenarioPayments.filter (fun p => isPendingLower p.status) = [scenarioPayment2] := by
    decide
  have hfFail : scenarioPayments.filter (fun p => isFailedLower p.status) = [scenarioPayment3] := by
    decide
  refine ⟨totalRevenue_eq_spec, pendingRevenue_eq_spec, failedRevenue_eq_spec,
    fun ps => rfl, fun ps => rfl, fun ps => rfl, successRate_eq_spec, ?_, ?_, ?_, ?_, ?_, ?_, ?_⟩
  · rw [totalRevenue_eq_spec]
    unfold totalRevenueSpec
    rw [hfPaid]
    simp [scenarioPayment1]
  · rw [pendingRevenue_eq_spec]
    unfold pendingRevenueSpec
    rw [hfPend]
    simp [scenarioPayment2]
  · rw [failedRevenue_eq_spec]
    unfold failedRevenueSpec
    rw [hfFail]
    simp [scenarioPayment3]
  · decide
  · decide
  · decide
  · have hcc : completedCount scenarioPayments = 1 := by decide
    have hl : scenarioPayments.length = 3 := by decide
    have harg : ((1 : ℕ) : ℚ) / ((3 : ℕ) : ℚ) * 100 = mkRat 100 3 := by
      rw [Rat.mkRat_eq_div]
      norm_num
    unfold successRate
    rw [hcc, hl, if_pos (by decide : (3 : ℕ) > 0), harg]
    decide

/-- C2: for every payments list the three bucket counts sum to at most the
list length, with equality exactly when every status is recognized by one
of the three case-insensitive buckets. -/
theorem counts_bounded_by_total (payments : List Payment) :
    completedCount payments + pendingCount payments + failedCount payments ≤ payments.length ∧
      (completedCount payments + pendingCount payments + failedCount payments = payments.length ↔
        ∀ p ∈ payments, recognizedStatus p.status = true) := by
  induction payments with
  | nil => simp [completedCount, pendingCount, failedCount]
  | cons x l ih =>
    obtain ⟨ihle, ihiff⟩ := ih
    obtain ⟨hxle, hxiff⟩ := bucket_indicator x.status
    have hc : completedCount (x :: l) =
        (if isPaidLower x.status = true then 1 else 0) + completedCount l :=
      length_filter_cons _ x l
    have hp : pendingCount (x :: l) =
        (if isPendingLower x.status = true then 1 else 0) + pendingCount l :=
      length_filter_cons _ x l
    have hf : failedCount (x :: l) =
        (if isFailedLower x.status = true then 1 else 0) + failedCount l :=
      length_filter_cons _ x l
    rw [hc, hp, hf, List.length_cons]
    set ia := (if isPaidLower x.status = true then 1 else 0) with hia
    set ib := (if isPendingLower x.status = true then 1 else 0) with hib
    set ic := (if isFailedLower x.status = true then 1 else 0) with hic
    constructor
    · omega
    · constructor
      · intro hsum
        have h1 : ia + ib + ic = 1 := by omega
        have h2 : completedCount l + pendingCount l + failedCount l = l.length := by omega
        intro p hp
        rcases List.mem_cons.mp hp with h | h
        · rw [h]
          exact hxiff.mp h1
        · exact ihiff.mp h2 p h
      · intro hall
        have hx := hxiff.mpr (hall x (List.mem_cons_self x l))
        have hl := ihiff.mpr fun p hp => hall p (List.mem_cons_of_mem x hp)
        omega

/-- C3 counterexample: the empty search term does not return every list
unchanged — a payment whose `transaction_id`, `payment_reference` and
`profiles` are all absent is dropped even by the empty term, because every
optional-chained disjunct of the filter predicate is falsy. -/
theorem emptySearch_drops_searchless_payment :
    filteredPayments "" [searchlessPayment] ≠ [searchlessPayment] := by decide

/-- C3 (amended): the empty search term returns the input list unchanged
and in order provided every record has a searchable field (a present
`transaction_id` or `payment_reference`, or a profile with a non-empty
email); records with none of the three are dropped even by the empty term. -/
theorem emptySearch_preserves_searchable_lists (payments : List Payment)
    (h : ∀ p ∈ payments, hasSearchableField p = true) :
    filteredPayments "" payments = payments := by
  unfold filteredPayments
  exact List.filter_eq_self.mpr fun p hp => matchesSearch_empty_term p (h p hp)

/-- C3 witness: the amended theorem applied to a concrete singleton list
whose payment carries a transaction id. -/
theorem emptySearch_preserves_searchable_lists_witness :
    filteredPayments "" [searchablePayment] = [searchablePayment] :=
  emptySearch_preserves_searchable_lists [searchablePayment] (by decide)

/-- C4: `getStatusVariant` is a case-sensitive exact match on the raw
status string — exactly `"paid"`/`"Completed"` map to the primary variant
`"default"`, `"pending"`/`"Pending"` to `"secondary"`, `"failed"`/`"Failed"`
to `"destructive"`, and every other string (including other casings such
as `"PAID"` and `"completed"`) to the neutral variant `"outline"`. -/
theorem statusVariant_case_sensitive (status : String) :
    ((status = "paid" ∨ status = "Completed") → getStatusVariant status = "default") ∧
    ((status = "pending" ∨ status = "Pending") → getStatusVariant status = "secondary") ∧
    ((status = "failed" ∨ status = "Failed") → getStatusVariant status = "destructive") ∧
    (status ≠ "paid" → status ≠ "Completed" → status ≠ "pending" → status ≠ "Pending" →
      status ≠ "failed" → status ≠ "Failed" → getStatusVariant status = "outline") ∧
    getStatusVariant "PAID" = "outline" ∧ getStatusVariant "completed" = "outline" := by
  refine ⟨?_, ?_, ?_, ?_, by decide, by decide⟩
  · rintro (h | h) <;> subst h <;> decide
  · rintro (h | h) <;> subst h <;> decide
  · rintro (h | h) <;> subst h <;> decide
  · intro h1 h2 h3 h4 h5 h6
    simp [getStatusVariant, h1, h2, h3, h4, h5, h6]

/-- C4 witness: the classification instantiated at `"paid"`. -/
theorem statusVariant_case_sensitive_witness : getStatusVariant "paid" = "default" :=
  (statusVariant_case_sensitive "paid").1 (Or.inl rfl)

/-- C5: `getCustomerName` returns `"Unknown"` without a profile; with a
profile it returns the trimmed single-space concatenation of the defaulted
first and last names when either is non-empty, and the profile email when
both are empty; and on every combination of absent profile, absent names
or empty names (email non-empty when the profile is present) the result is
non-empty. -/
theorem customerName_fallbacks (payment : Payment) :
    (payment.profiles = none → getCustomerName payment = "Unknown") ∧
    (∀ pr, payment.profiles = some pr →
      ((pr.first_name.getD "" ≠ "" ∨ pr.last_name.getD "" ≠ "") →
        getCustomerName payment = strTrim (pr.first_name.getD "" ++ " " ++ pr.last_name.getD "")) ∧
      (pr.first_name.getD "" = "" → pr.last_name.getD "" = "" →
        getCustomerName payment = pr.email)) ∧
    (payment.profiles = none → getCustomerName payment ≠ "") ∧
    (∀ pr, payment.profiles = some pr → pr.email ≠ "" →
      (pr.first_name = none ∨ pr.first_name = some "") →
      (pr.last_name = none ∨ pr.last_name = some "") →
      getCustomerName payment ≠ "") := by
  refine ⟨?_, ?_, ?_, ?_⟩
  · intro h
    simp [getCustomerName, h]
  · intro pr h
    constructor
    · intro hne
      simp only [getCustomerName, h]
      rw [if_pos hne]
    · intro h1 h2
      simp [getCustomerName, h, h1, h2]
  · intro h
    simp [getCustomerName, h]
  · intro pr h he hfn hln
    have h1 : pr.first_name.getD "" = "" := by rcases hfn with h' | h' <;> simp [h']
    have h2 : pr.last_name.getD "" = "" := by rcases hln with h' | h' <;> simp [h']
    simp [getCustomerName, h, h1, h2, he]

/-- C5 witness: the name branch instantiated at a payment whose profile has
first name `"Ada"` and no last name. -/
theorem customerName_fallbacks_witness :
    getCustomerName namedPayment = strTrim ("Ada" ++ " " ++ "") :=
  ((customerName_fallbacks namedPayment).2.1 _ rfl).1 (Or.inl (by decide))

/-- C6: `formatCurrency` renders a Naira symbol with en-US locale grouping
exactly when the currency code is `"NGN"` and a dollar symbol with exactly
two decimal places otherwise; in particular `formatCurrency 1234.5 "USD"`
is `"$1234.50"` (and `formatCurrency 1234.5 "NGN"` is `"₦1,234.5"`). -/
theorem formatCurrency_branches :
    (∀ a : ℚ, 0 ≤ a → formatCurrency a "NGN" = "₦" ++ toLocaleStringEnUS a) ∧
    (∀ (a : ℚ) (c : String), 0 ≤ a → c ≠ "NGN" → formatCurrency a c = "$" ++ ratToFixed 2 a) ∧
    (∀ (a : ℚ) (c : String), (formatCurrency a c).data.head? = some '₦' ↔ c = "NGN") ∧
    formatCurrency (1234.5 : ℚ) "USD" = "$1234.50" ∧
    formatCurrency (1234.5 : ℚ) "NGN" = "₦1,234.5" := by
  have h1 : (1234.5 : ℚ) = mkRat 2469 2 := by
    rw [Rat.mkRat_eq_div]
    norm_num
  refine ⟨?_, ?_, ?_, ?_, ?_⟩
  · intro a _
    simp [formatCurrency]
  · intro a c _ hc
    simp [formatCurrency, hc]
  · intro a c
    by_cases hc : c = "NGN"
    · simp [formatCurrency, hc, head_append_naira]
    · simp [formatCurrency, hc, head_append_dollar]
  · unfold formatCurrency
    rw [if_neg (by decide : ¬("USD" = "NGN")), h1]
    decide
  · unfold formatCurrency
    rw [if_pos rfl, h1]
    decide

/-- C6 witness: the dollar branch instantiated at amount `2469/2` and
currency `"EUR"`. -/
theorem formatCurrency_branches_witness :
    formatCurrency (mkRat 2469 2) "EUR" = "$" ++ ratToFixed 2 (mkRat 2469 2) :=
  formatCurrency_branches.2.1 (mkRat 2469 2) "EUR" (by decide) (by decide)

/-- C7 counterexample: a paystack payment whose `payment_reference` is the
empty string (present, not null) gets no provider link, because the
JavaScript truthiness guard rejects the empty string. -/
theorem providerLink_empty_reference_counterexample :
    emptyRefPayment.payment_provider = some "paystack" ∧
    emptyRefPayment.payment_reference = some "" ∧
    getPaymentProviderLink emptyRefPayment = none := by decide

/-- C7 (amended): `getPaymentProviderLink` is absent whenever the provider
is not `"paystack"` or the reference is absent or empty, and otherwise
returns the paystack dashboard URL followed by the exact reference. -/
theorem providerLink_guard (payment : Payment) :
    ((payment.payment_provider ≠ some "paystack" ∨ payment.payment_reference = none ∨
        payment.payment_reference = some "") → getPaymentProviderLink payment = none) ∧
    (∀ ref, payment.payment_provider = some "paystack" → payment.payment_reference = some ref →
      ref ≠ "" →
      getPaymentProviderLink payment =
        some ("https://dashboard.paystack.com/#/transactions/" ++ ref)) := by
  constructor
  · rintro (h | h | h) <;> simp [getPaymentProviderLink, h]
  · intro ref hprov href hne
    simp [getPaymentProviderLink, hprov, href, hne]

/-- C7 witness: the link branch instantiated at a paystack payment with
reference `"ref_123"`. -/
theorem providerLink_guard_witness :
    getPaymentProviderLink linkedPayment =
      some ("https://dashboard.paystack.com/#/transactions/" ++ "ref_123") :=
  (providerLink_guard linkedPayment).2 "ref_123" rfl rfl (by decide)

/-- C8: when the fetch settles with an error, the component state captures
the error message for display, clears the loading flag, and holds an empty
payments list (the mount-time fetch starts from the initial state, whose
payments list is empty and is not touched by the catch branch). -/
theorem fetchFailure_clears_state (message : String) :
    (applyFetchOutcome initialState (Except.error message)).error = some message ∧
    (applyFetchOutcome initialState (Except.error message)).isLoading = false ∧
    (applyFetchOutcome initialState (Except.error message)).payments = [] :=
  ⟨rfl, rfl, rfl⟩

/-- C9: the loading indicator ticks elapsed seconds once per second,
reaches the timeout flag exactly when the configured duration has elapsed
before unmount, freezes at its unmount-time state forever after unmount,
and on the concrete `timeout = 1000` ms / unmount-at-1100 ms scenario the
flag is set with at least one elapsed second and the state never changes
after 1100 ms. -/
theorem loadingIndicator_timers (timeout unmountAt t : Nat) :
    ((spinnerState timeout unmountAt t).loadingTime = min t unmountAt / 1000) ∧
    ((spinnerState timeout unmountAt t).timeoutReached = true ↔ timeout ≤ min t unmountAt) ∧
    (t + 1000 ≤ unmountAt →
      (spinnerState timeout unmountAt (t + 1000)).loadingTime =
        (spinnerState timeout unmountAt t).loadingTime + 1) ∧
    (unmountAt ≤ t → spinnerState timeout unmountAt t = spinnerState timeout unmountAt unmountAt) ∧
    ((spinnerState 1000 1100 1100).timeoutReached = true ∧
      1 ≤ (spinnerState 1000 1100 1100).loadingTime) ∧
    (1100 ≤ t → spinnerState 1000 1100 t = spinnerState 1000 1100 1100) := by
  refine ⟨?_, ?_, ?_, ?_, by decide, ?_⟩
  · rw [spinnerState_eval]
  · rw [spinnerState_eval]
    simp [decide_eq_true_eq]
  · intro h
    rw [spinnerState_eval, spinnerState_eval]
    dsimp only
    have h1 : min (t + 1000) unmountAt = t + 1000 := by omega
    have h2 : min t unmountAt = t := by omega
    rw [h1, h2]
    omega
  · intro h
    rw [spinnerState_eval, spinnerState_eval]
    have h1 : min t unmountAt = unmountAt := by omega
    rw [h1, min_self]
  · intro h
    rw [spinnerState_eval, spinnerState_eval]
    have h1 : min t 1100 = 1100 := by omega
    rw [h1, min_self]

/-- C9 witness: the frozen-after-unmount clause instantiated at 5000 ms. -/
theorem loadingIndicator_timers_witness :
    spinnerState 1000 1100 5000 = spinnerState 1000 1100 1100 :=
  (loadingIndicator_timers 1000 1100 5000).2.2.2.2.2 (by decide)

/-- C10: every summary aggregate is computed from the full unfiltered
payments list, so two renders of the same list under any two search terms
produce identical summary cards — the term affects only the filtered rows. -/
theorem summary_independent_of_search (payments : List Payment) (term1 term2 : String) :
    summaryOf (renderView payments term1) = summaryOf (renderView payments term2) := rfl

end Auracargo
